import Mathlib

/-!
# SnapBuy storefront: `frontend/src/ProductList.jsx`

A shallow embedding of the two React components of `ProductList.jsx`
(`GridItem` and `ProductList`, with its asynchronous `fetchProducts`) and of
the ECMAScript operations their expressions use, followed by the properties
proved about them.

Conventions of the embedding.

* A JavaScript value is a `JSValue`: the values `JSON.parse` can produce,
  plus `undefined` (the result of reading an absent property).  Numbers are
  kept abstract (a type `ν` with the three operations of `JSNumber`), because
  the program only tests them for truthiness and prints them.
* A JavaScript exception is a `JSError`; an expression that can throw is an
  `Except JSError _`, and a settled promise is modelled the same way
  (`ok` = fulfilled, `error` = rejected).
* A component is a function from its props and state to the element tree it
  returns.  What the program does to the outside world (state setters,
  `setError`, `fetch`) is recorded in a `World`.
* What stands on the page is what React makes of such an element tree:
  `Card.render` turns the attribute values and children of a card into text
  and fails where React does, on a child that is a plain object and on an
  attribute value without a string conversion.
-/

namespace SnapBuy

/-! ## JavaScript values -/

/-- Operations on ECMAScript Number values that the program relies on. -/
class JSNumber (ν : Type) where
  /-- The falsy numbers: `+0`, `-0` and `NaN`. -/
  isFalsy : ν → Bool
  /-- The text of `Number::toString` in radix 10. -/
  toStr : ν → String
  /-- The text `JSON.stringify` gives: `toStr` for a finite number, `null` otherwise. -/
  toJSON : ν → String

/-- Integer-valued numbers, printed in decimal; used for concrete evaluation. -/
instance : JSNumber Int where
  isFalsy n := n == 0
  toStr n := toString n
  toJSON n := toString n

/-- A thrown JavaScript exception; `message` is its `.message` property. -/
structure JSError where
  message : String

/-- JavaScript values: `undefined` and the JSON values.  The field list of an
object holds its own properties in enumeration order, keys distinct. -/
inductive JSValue (ν : Type) where
  | undefined
  | null
  | bool (b : Bool)
  | num (n : ν)
  | str (s : String)
  | arr (xs : List (JSValue ν))
  | obj (fields : List (String × JSValue ν))

namespace JSValue

/-- ToBoolean: the value is truthy. -/
def truthy {ν : Type} [JSNumber ν] : JSValue ν → Bool
  | undefined => false
  | null => false
  | bool b => b
  | num n => !JSNumber.isFalsy n
  | str s => s != ""
  | arr _ => true
  | obj _ => true

/-- The expression `a || b`. -/
def or {ν : Type} [JSNumber ν] (a b : JSValue ν) : JSValue ν :=
  if a.truthy then a else b

/-- The test `typeof v === 'object'`: true for objects, arrays and `null`. -/
def typeofIsObject {ν : Type} : JSValue ν → Bool
  | null => true
  | arr _ => true
  | obj _ => true
  | _ => false

/-- The test `Array.isArray(v)`. -/
def isArray {ν : Type} : JSValue ν → Bool
  | arr _ => true
  | _ => false

/-- The value is `null` or `undefined`. -/
def isNullish {ν : Type} : JSValue ν → Bool
  | undefined => true
  | null => true
  | _ => false

/-- The property `base[key]` of a value that is neither `null` nor
`undefined`, for a key that no built-in prototype defines (the program reads
`_id`, `images`, `src`, `name`, `category` and `price`): an own property of an
object, `undefined` everywhere else. -/
def ownField {ν : Type} : JSValue ν → String → JSValue ν
  | obj fields, key => (fields.lookup key).getD undefined
  | _, _ => undefined

/-- The property `base[i]` with `i` an array index, of a value that is neither
`null` nor `undefined`.  On a string JavaScript yields the code unit at `i`;
here it is the character at `i` (the same for text within the Basic
Multilingual Plane). -/
def ownIndex {ν : Type} : JSValue ν → Nat → JSValue ν
  | arr xs, i => (xs.get? i).getD undefined
  | obj fields, i => (fields.lookup (toString i)).getD undefined
  | str s, i => ((s.data.get? i).map fun c => str (String.singleton c)).getD undefined
  | _, _ => undefined

/-- The expression `base.key`: a TypeError on `null` and `undefined`. -/
def getField {ν : Type} (base : JSValue ν) (key : String) : Except JSError (JSValue ν) :=
  if base.isNullish then
    throw ⟨"Cannot read properties of null or undefined (reading " ++ key ++ ")"⟩
  else pure (base.ownField key)

/-- The expression `base?.key`. -/
def optField {ν : Type} (base : JSValue ν) (key : String) : JSValue ν :=
  if base.isNullish then undefined else base.ownField key

/-- The expression `base?.[i]`. -/
def optIndex {ν : Type} (base : JSValue ν) (i : Nat) : JSValue ν :=
  if base.isNullish then undefined else base.ownIndex i

mutual
/-- ToString, as a template literal applies it.  An array prints its elements
joined by commas; a plain object prints as `[object Object]`, unless an own
property shadows `toString` (a JSON value is never callable, `valueOf` then
returns the object itself, and the conversion throws). -/
def toJSString {ν : Type} [JSNumber ν] : JSValue ν → Except JSError String
  | undefined => pure "undefined"
  | null => pure "null"
  | bool b => pure (if b then "true" else "false")
  | num n => pure (JSNumber.toStr n)
  | str s => pure s
  | arr xs => do
      let parts ← joinParts xs
      pure (String.intercalate "," parts)
  | obj fields =>
      if fields.any (fun kv => kv.1 == "toString") then
        throw ⟨"Cannot convert object to primitive value"⟩
      else pure "[object Object]"
/-- The pieces `Array.prototype.join` concatenates: the empty string for
`null` and `undefined`, ToString of every other element. -/
def joinParts {ν : Type} [JSNumber ν] : List (JSValue ν) → Except JSError (List String)
  | [] => pure []
  | x :: rest => do
      let s ← if x.isNullish then pure "" else toJSString x
      let ss ← joinParts rest
      pure (s :: ss)
end

/-! ### `JSON.stringify` -/

/-- Hexadecimal digit of a number below 16, in lower or upper case. -/
def hexDigit (upper : Bool) (n : Nat) : Char :=
  if n < 10 then Char.ofNat (48 + n)
  else Char.ofNat ((if upper then 55 else 87) + n)

/-- QuoteJSONString on one character: the short escapes, a `u00XX` escape for
the other control characters, the character itself otherwise. -/
def quoteJSONChar (c : Char) : String :=
  let bs := String.singleton (Char.ofNat 92)
  if c.toNat = 8 then bs ++ "b"
  else if c.toNat = 9 then bs ++ "t"
  else if c.toNat = 10 then bs ++ "n"
  else if c.toNat = 12 then bs ++ "f"
  else if c.toNat = 13 then bs ++ "r"
  else if c.toNat = 34 then bs ++ String.singleton (Char.ofNat 34)
  else if c.toNat = 92 then bs ++ bs
  else if c.toNat < 32 then
    bs ++ "u00" ++ String.singleton (hexDigit false (c.toNat / 16))
      ++ String.singleton (hexDigit false (c.toNat % 16))
  else String.singleton c

/-- QuoteJSONString: the text between double quotes, escaped. -/
def quoteJSON (s : String) : String :=
  let q := String.singleton (Char.ofNat 34)
  q ++ String.join (s.data.map quoteJSONChar) ++ q

mutual
/-- The call `JSON.stringify(v)` (no replacer, no indentation); `none` is the
result `undefined`. -/
def stringify {ν : Type} [JSNumber ν] : JSValue ν → Option String
  | undefined => none
  | null => some "null"
  | bool b => some (if b then "true" else "false")
  | num n => some (JSNumber.toJSON n)
  | str s => some (quoteJSON s)
  | arr xs => some ("[" ++ String.intercalate "," (stringifyElements xs) ++ "]")
  | obj fields => some ("\x7b" ++ String.intercalate "," (stringifyMembers fields) ++ "\x7d")
/-- Elements of a serialised array: `undefined` is written `null`. -/
def stringifyElements {ν : Type} [JSNumber ν] : List (JSValue ν) → List String
  | [] => []
  | x :: rest => (stringify x).getD "null" :: stringifyElements rest
/-- Members of a serialised object: a property whose value is `undefined`
is left out. -/
def stringifyMembers {ν : Type} [JSNumber ν] : List (String × JSValue ν) → List String
  | [] => []
  | (key, x) :: rest =>
      match stringify x with
      | some s => (quoteJSON key ++ ":" ++ s) :: stringifyMembers rest
      | none => stringifyMembers rest
end

/-- The value of the expression `JSON.stringify(v)`. -/
def jsonStringify {ν : Type} [JSNumber ν] (v : JSValue ν) : JSValue ν :=
  match stringify v with
  | some s => str s
  | none => undefined

/-! ### Text of a React child -/

mutual
/-- The text React renders for a child value: a string or a number is
printed, booleans, `null` and `undefined` render nothing, an array renders
its elements in order, and a plain object is rejected (`none`). -/
def childText {ν : Type} [JSNumber ν] : JSValue ν → Option String
  | undefined => some ""
  | null => some ""
  | bool _ => some ""
  | num n => some (JSNumber.toStr n)
  | str s => some s
  | arr xs => childrenText xs
  | obj _ => none
/-- The text of a sequence of children. -/
def childrenText {ν : Type} [JSNumber ν] : List (JSValue ν) → Option String
  | [] => some ""
  | x :: rest =>
      match childText x, childrenText rest with
      | some s, some t => some (s ++ t)
      | _, _ => none
end

end JSValue

/-! ## `encodeURIComponent` -/

/-- The UTF-8 octets of a code point. -/
def utf8Octets (c : Nat) : List Nat :=
  if c < 128 then [c]
  else if c < 2048 then [192 + c / 64, 128 + c % 64]
  else if c < 65536 then [224 + c / 4096, 128 + c / 64 % 64, 128 + c % 64]
  else [240 + c / 262144, 128 + c / 4096 % 64, 128 + c / 64 % 64, 128 + c % 64]

/-- The characters `encodeURIComponent` leaves alone: ASCII letters, digits
and the marks `- _ . ! ~ * ' ( )`. -/
def uriUnreserved (c : Char) : Bool :=
  let n := c.toNat
  (65 ≤ n && n ≤ 90) || (97 ≤ n && n ≤ 122) || (48 ≤ n && n ≤ 57)
    || [45, 95, 46, 33, 126, 42, 39, 40, 41].contains n

/-- One octet as `%XX`, upper-case hexadecimal. -/
def percentOctet (b : Nat) : String :=
  "%" ++ String.singleton (JSValue.hexDigit true (b / 16))
    ++ String.singleton (JSValue.hexDigit true (b % 16))

/-- The call `encodeURIComponent(s)` on well-formed text. -/
def encodeURIComponent (s : String) : String :=
  String.join (s.data.map fun c =>
    if uriUnreserved c then String.singleton c
    else String.join ((utf8Octets c.toNat).map percentOctet))

/-! ## `GridItem` (lines 10-64) -/

/-- The image source used when a product has none (line 25). -/
def placeholderImage : String :=
  "https://placehold.co/400x500/f8fafc/64748b?text=No+Image"

/-- The element tree `GridItem` returns for a product, reduced to the link,
the image, the quick-view price and the two captions. -/
structure Card (ν : Type) where
  /-- Target of the link around the card (line 22). -/
  linkTo : String
  /-- Prop `src` of the image (line 25). -/
  imgSrc : JSValue ν
  /-- Prop `alt` of the image (line 26). -/
  imgAlt : JSValue ν
  /-- Children of the quick-view price paragraph (line 46), present while the
  card is hovered (line 35). -/
  quickViewPrice : Option (List (JSValue ν))
  /-- Child of the heading (line 58). -/
  title : JSValue ν
  /-- Child of the category paragraph (line 59). -/
  subtitle : JSValue ν

/-- The text of the quick-view price paragraph, when it is shown and
renderable. -/
def Card.priceText {ν : Type} [JSNumber ν] (c : Card ν) : Option String :=
  c.quickViewPrice.bind JSValue.childrenText

/-- The expression in the quick-view paragraph (line 46):
`typeof item.price === 'object' ? JSON.stringify(item.price) : item.price || 'N/A'`. -/
def priceChild {ν : Type} [JSNumber ν] (price : JSValue ν) : JSValue ν :=
  if price.typeofIsObject then JSValue.jsonStringify price
  else price.or (JSValue.str "N/A")

/-- The component `GridItem`, given its prop `item` and its state
`isHovered`: `none` is the result `null` of line 12. -/
def GridItem {ν : Type} [JSNumber ν] (item : JSValue ν) (isHovered : Bool) :
    Except JSError (Option (Card ν)) :=
  if !item.truthy then pure none
  else do
    let id ← item.getField "_id"
    let idText ← id.toJSString
    let images ← item.getField "images"
    let src := ((images.optIndex 0).optField "src").or (JSValue.str placeholderImage)
    let name ← item.getField "name"
    let price ← item.getField "price"
    let category ← item.getField "category"
    pure (some {
      linkTo := "/products/" ++ idText
      imgSrc := src
      imgAlt := name.or (JSValue.str "Product")
      quickViewPrice :=
        if isHovered then some [JSValue.str "Rs. ", priceChild price] else none
      title := name.or (JSValue.str "Unnamed Product")
      subtitle := category.or (JSValue.str "Collection") })

/-! ## `ProductList` (lines 66-156) -/

/-- The argument of a `setError` call (line 85). -/
structure ErrorReport where
  message : String
  status : String

/-- Component state of `ProductList` together with a record of what it did to
its surroundings. -/
structure World (ν : Type) where
  /-- State `products` (line 67). -/
  products : List (JSValue ν)
  /-- State `loading` (line 68). -/
  loading : Bool
  /-- Calls of the error context's `setError`, oldest first. -/
  errorCalls : List ErrorReport
  /-- URLs handed to `fetch`, oldest first. -/
  requests : List String

/-- The world at mount: `useState([])`, `useState(true)`, nothing done yet. -/
def World.initial (ν : Type) : World ν :=
  { products := [], loading := true, errorCalls := [], requests := [] }

/-- What the component reads from its surroundings: the interpolated
`import.meta.env.VITE_API_URL` and the result of `searchParams.get('q')`
(`none` for `null`, parameter absent). -/
structure Env where
  apiUrl : String
  q : Option String

/-- The constant `query` of line 71: `searchParams.get('q') || ''`. -/
def Env.query (env : Env) : String :=
  match env.q with
  | some s => if s != "" then s else ""
  | none => ""

/-- An HTTP response as `fetchProducts` uses it: `res.ok`, `res.status` and
the settled promise of `res.json()`. -/
structure Response (ν : Type) where
  ok : Bool
  status : Nat
  json : Except JSError (JSValue ν)

/-- The network: the settled promise `fetch(url)` for each URL. -/
abbrev Network (ν : Type) := String → Except JSError (Response ν)

/-- The URL of lines 76-78. -/
def requestUrl (env : Env) : String :=
  if env.query != "" then env.apiUrl ++ "/products?q=" ++ encodeURIComponent env.query
  else env.apiUrl ++ "/products"

/-- The part of `fetchProducts` that runs before the first `await` (lines
74-79): the loading flag, then the request.  Returns the world while the
request is in flight, and the URL requested. -/
def fetchProductsBegin {ν : Type} (env : Env) (isRetry : Bool) (w : World ν) :
    World ν × String :=
  let w1 : World ν := if !isRetry then { w with loading := true } else w
  let url := requestUrl env
  ({ w1 with requests := w1.requests ++ [url] }, url)

/-- The expression `Array.isArray(data) ? data : []` of line 82, as the list
of elements. -/
def arrayOrEmpty {ν : Type} : JSValue ν → List (JSValue ν)
  | JSValue.arr xs => xs
  | _ => []

/-- Lines 79-82 once the request has settled: the value handed to
`setProducts`, or the exception that reaches the `catch` clause. -/
def fetchProductsBody {ν : Type} (fetched : Except JSError (Response ν)) :
    Except JSError (List (JSValue ν)) := do
  let res ← fetched
  if !res.ok then throw ⟨"Server status: " ++ toString res.status⟩
  let data ← res.json
  pure (arrayOrEmpty data)

/-- The rest of `fetchProducts` (lines 79-89): `setProducts` on success, the
`catch` clause on failure, the `finally` clause in both cases. -/
def fetchProductsSettle {ν : Type} (isRetry : Bool)
    (fetched : Except JSError (Response ν)) (w : World ν) : World ν :=
  let w2 : World ν :=
    match fetchProductsBody fetched with
    | .ok ps => { w with products := ps }
    | .error err =>
        if !isRetry then
          { w with errorCalls := w.errorCalls ++
              [{ message := if err.message != "" then err.message
                            else "An unexpected error occurred",
                 status := "Offline" }] }
        else w
  { w2 with loading := false }

/-- One complete run of `fetchProducts(isRetry)` (lines 73-90). -/
def fetchProducts {ν : Type} (env : Env) (net : Network ν) (isRetry : Bool)
    (w : World ν) : World ν :=
  let started := fetchProductsBegin env isRetry w
  fetchProductsSettle isRetry (net started.2) started.1

/-- The effect of lines 92-94, run on mount and when `query` changes:
`fetchProducts()`, so `isRetry` takes its default `false`. -/
def onQueryEffect {ν : Type} (env : Env) (net : Network ν) (w : World ν) : World ν :=
  fetchProducts env net false w

/-- The click handler of the Refresh Store button (line 133):
`() => fetchProducts()`, so `isRetry` takes its default `false`. -/
def onRefreshClick {ν : Type} (env : Env) (net : Network ν) (w : World ν) : World ν :=
  fetchProducts env net false w

/-- The world while the request started by a click on Refresh Store is in
flight. -/
def onRefreshClickBegin {ν : Type} (env : Env) (w : World ν) : World ν :=
  (fetchProductsBegin env false w).1

/-- A `GridItem` element of line 148: its key and its prop `item`. -/
structure GridItemElement (ν : Type) where
  key : JSValue ν
  item : JSValue ν

/-- What `ProductList` returns: the loader (line 96), the empty-state panel
with its heading (lines 103-139) or the grid of `GridItem` elements (lines
141-150). -/
inductive Page (ν : Type) where
  | loader
  | emptyState (heading : String)
  | productGrid (items : List (GridItemElement ν))

/-- The heading of the empty state (line 118). -/
def emptyHeading (env : Env) : String :=
  if env.query != "" then "No results for \"" ++ env.query ++ "\""
  else "The store is quiet today"

/-- The callback of `products.map` (lines 147-149) applied from position `i`
on; `random i` is the value `Math.random()` returns when it is called for
the element at position `i`. -/
def gridItems {ν : Type} [JSNumber ν] (random : Nat → ν) :
    Nat → List (JSValue ν) → Except JSError (List (GridItemElement ν))
  | _, [] => pure []
  | i, item :: rest => do
      let id ← item.getField "_id"
      let element : GridItemElement ν :=
        { key := id.or (JSValue.num (random i)), item := item }
      let elements ← gridItems random (i + 1) rest
      pure (element :: elements)

/-- The component `ProductList`: the element tree of lines 96-155. -/
def ProductList {ν : Type} [JSNumber ν] (env : Env) (random : Nat → ν) (w : World ν) :
    Except JSError (Page ν) :=
  if w.loading then pure Page.loader
  else if w.products.length = 0 then pure (Page.emptyState (emptyHeading env))
  else do
    let items ← gridItems random 0 w.products
    pure (Page.productGrid items)

/-! ## What React puts on the page -/

/-- The error React raises for a child it cannot render, a plain object. -/
def invalidChild : JSError :=
  ⟨"Objects are not valid as a React child"⟩

/-- React rendering one child value (lines 58 and 59): its text, or the
error for a plain object. -/
def renderChild {ν : Type} [JSNumber ν] (v : JSValue ν) : Except JSError String :=
  match v.childText with
  | some t => pure t
  | none => throw invalidChild

/-- React rendering the children of one element (line 46): their texts in
order, or the error for a plain object. -/
def renderChildren {ν : Type} [JSNumber ν] (vs : List (JSValue ν)) : Except JSError String :=
  match JSValue.childrenText vs with
  | some t => pure t
  | none => throw invalidChild

/-- The text React writes for the value of the attributes `src` and `alt`
(lines 25 and 26): the attribute is left out (`none`) for `undefined`, `null`
and a boolean, and is the string conversion of any other value, which can
throw. -/
def attributeText {ν : Type} [JSNumber ν] : JSValue ν → Except JSError (Option String)
  | JSValue.undefined => pure none
  | JSValue.null => pure none
  | JSValue.bool _ => pure none
  | v => do
      let s ← v.toJSString
      pure (some s)

/-- A card as it stands on the page: the texts React made of the element
tree `GridItem` returned. -/
structure RenderedCard where
  href : String
  src : Option String
  alt : Option String
  priceText : Option String
  title : String
  subtitle : String

/-- React rendering the element tree of a card: it fails when an attribute
value has no string conversion or a child is a plain object. -/
def Card.render {ν : Type} [JSNumber ν] (c : Card ν) : Except JSError RenderedCard := do
  let src ← attributeText c.imgSrc
  let alt ← attributeText c.imgAlt
  let priceText ←
    match c.quickViewPrice with
    | some children => do
        let t ← renderChildren children
        pure (some t)
    | none => pure none
  let title ← renderChild c.title
  let subtitle ← renderChild c.subtitle
  pure { href := c.linkTo, src := src, alt := alt, priceText := priceText,
         title := title, subtitle := subtitle }

/-- The cards on a page, each with its key: every `GridItem` element of the
grid is evaluated with the hover state `hovered i` of position `i` and what it
returns is rendered by React; an element that returns `null` puts no card on
the page, and an exception in any element leaves no page at all. -/
def renderCards {ν : Type} [JSNumber ν] (hovered : Nat → Bool) :
    Nat → List (GridItemElement ν) → Except JSError (List (JSValue ν × RenderedCard))
  | _, [] => pure []
  | i, element :: rest => do
      let returned ← GridItem element.item (hovered i)
      let shown ←
        match returned with
        | some card => do
            let r ← card.render
            pure (some r)
        | none => pure none
      let cards ← renderCards hovered (i + 1) rest
      pure (match shown with
        | some card => (element.key, card) :: cards
        | none => cards)

/-- The cards of a page: none on the loader and on the empty state. -/
def Page.cards {ν : Type} [JSNumber ν] (hovered : Nat → Bool) :
    Page ν → Except JSError (List (JSValue ν × RenderedCard))
  | Page.productGrid items => renderCards hovered 0 items
  | _ => pure []

/-! ## Sample data -/

/-- A storefront whose visitor searched for `red shoes`. -/
def searchEnv : Env := { apiUrl := "https://api.snapbuy.test", q := some "red shoes" }

/-- A storefront without a search parameter. -/
def plainEnv : Env := { apiUrl := "https://api.snapbuy.test", q := none }

/-- The page after a load that found nothing: the empty state is on screen. -/
def quietWorld : World Int :=
  { products := [], loading := false, errorCalls := [], requests := [] }

/-- A product as the API sends it. -/
def penProduct : JSValue Int :=
  JSValue.obj [("_id", JSValue.str "p1"), ("name", JSValue.str "Pen"),
    ("price", JSValue.num 120),
    ("images", JSValue.arr [JSValue.obj [("src", JSValue.str "https://img.snapbuy.test/pen.png")]])]

/-- A product sent without the field `images`. -/
def boxProduct : JSValue Int :=
  JSValue.obj [("_id", JSValue.str "p3"), ("name", JSValue.str "Box")]

/-- The page showing one product. -/
def stockedWorld : World Int :=
  { products := [penProduct], loading := false, errorCalls := [], requests := [] }

/-- A server that answers with an array of two elements: a product without
`_id`, and `false`. -/
def netOddCatalog : Network Int :=
  fun _ => .ok { ok := true, status := 200,
                 json := .ok (JSValue.arr [JSValue.obj [("name", JSValue.str "Pen")],
                                           JSValue.bool false]) }

/-- A server that answers every request with status 500. -/
def netStatus500 : Network Int :=
  fun _ => .ok { ok := false, status := 500, json := .ok JSValue.null }

/-- A connection that fails, the exception carrying no message. -/
def netSilentFailure : Network Int :=
  fun _ => .error { message := "" }

/-- A product sent without `_id`. -/
def cupProduct : JSValue Int :=
  JSValue.obj [("name", JSValue.str "Cup"), ("category", JSValue.str "Kitchen")]

/-- A server that answers with the JSON array of `penProduct`, `false` and
`cupProduct`. -/
def netMixedCatalog : Network Int :=
  fun _ => .ok { ok := true, status := 200,
                 json := .ok (JSValue.arr [penProduct, JSValue.bool false, cupProduct]) }

/-- A server that answers with one product whose `name` is an object. -/
def netObjectName : Network Int :=
  fun _ => .ok { ok := true, status := 200,
                 json := .ok (JSValue.arr [JSValue.obj [("_id", JSValue.str "p9"),
                   ("name", JSValue.obj [("first", JSValue.str "Pen")])]]) }

/-- A server that answers with a JSON object instead of an array. -/
def netObjectBody : Network Int :=
  fun _ => .ok { ok := true, status := 200,
                 json := .ok (JSValue.obj [("error", JSValue.str "maintenance")]) }

/-! ## Properties of `fetchProducts` -/

/-- A text that starts with `Server status: ` is not empty. -/
theorem serverStatus_ne_empty (t : String) : ("Server status: " ++ t != "") = true := by
  have h : "Server status: " ++ t ≠ "" := by
    intro h
    have hlen := congrArg String.length h
    rw [String.length_append] at hlen
    have h15 : "Server status: ".length = 15 := by decide
    have h0 : "".length = 0 := by decide
    omega
  simpa using h

/-- The world after a run that received an ok response with JSON body `d`. -/
theorem fetchProducts_ok {ν : Type} (env : Env) (net : Network ν) (isRetry : Bool)
    (w : World ν) (status : Nat) (d : JSValue ν)
    (hres : net (requestUrl env) = .ok { ok := true, status := status, json := .ok d }) :
    fetchProducts env net isRetry w =
      { products := arrayOrEmpty d,
        loading := false,
        errorCalls := w.errorCalls,
        requests := w.requests ++ [requestUrl env] } := by
  have hbody : fetchProductsBody (net (requestUrl env)) = .ok (arrayOrEmpty d) := by
    rw [hres]
    rfl
  cases isRetry <;>
    simp only [fetchProducts, fetchProductsBegin, fetchProductsSettle, hbody] <;> rfl

/-- The world after a run whose body raised `err`. -/
theorem fetchProducts_error {ν : Type} (env : Env) (net : Network ν) (isRetry : Bool)
    (w : World ν) (err : JSError)
    (hres : fetchProductsBody (net (requestUrl env)) = .error err) :
    fetchProducts env net isRetry w =
      { products := w.products,
        loading := false,
        errorCalls :=
          if isRetry then w.errorCalls
          else w.errorCalls ++
            [{ message := if err.message != "" then err.message
                          else "An unexpected error occurred",
               status := "Offline" }],
        requests := w.requests ++ [requestUrl env] } := by
  cases isRetry <;>
    simp only [fetchProducts, fetchProductsBegin, fetchProductsSettle, hres] <;> rfl

/-- Every run appends the requested URL, and nothing else, to the requests. -/
theorem fetchProducts_requests {ν : Type} (env : Env) (net : Network ν) (isRetry : Bool)
    (w : World ν) :
    (fetchProducts env net isRetry w).requests = w.requests ++ [requestUrl env] := by
  cases hb : fetchProductsBody (net (requestUrl env)) with
  | error err => rw [fetchProducts_error env net isRetry w err hb]
  | ok ps =>
    cases isRetry <;>
      simp only [fetchProducts, fetchProductsBegin, fetchProductsSettle, hb] <;> rfl

/-- The URL requested for the search `red shoes`: the space is
percent-encoded. -/
theorem requestUrl_searchEnv :
    requestUrl searchEnv = "https://api.snapbuy.test/products?q=red%20shoes" := by
  decide

/-- The exception raised by the body for each kind of failed request. -/
theorem fetchProductsBody_failure {ν : Type} (fetched : Except JSError (Response ν)) :
    (∀ e, fetched = .error e → fetchProductsBody fetched = .error e) ∧
    (∀ res, fetched = .ok res → res.ok = false →
      fetchProductsBody fetched = .error ⟨"Server status: " ++ toString res.status⟩) ∧
    (∀ res e, fetched = .ok res → res.ok = true → res.json = .error e →
      fetchProductsBody fetched = .error e) := by
  refine ⟨?_, ?_, ?_⟩
  · intro e h
    subst h
    rfl
  · intro res h hok
    subst h
    cases res with
    | mk ok status json =>
      cases hok
      rfl
  · intro res e h hok hjson
    subst h
    cases res with
    | mk ok status json =>
      cases hok
      cases hjson
      rfl

/-- The constant `query` is the search parameter when that is a non-empty
text. -/
theorem query_of_nonempty (env : Env) (q : String) (hq : env.q = some q) (hne : q ≠ "") :
    env.query = q := by
  simp [Env.query, hq, hne]

/-- The constant `query` is empty when the search parameter is absent or
empty. -/
theorem query_of_absent (env : Env) (hq : env.q = none ∨ env.q = some "") :
    env.query = "" := by
  rcases hq with hq | hq <;> simp [Env.query, hq]

/-- The page of a world that is not loading and has no products. -/
theorem ProductList_empty {ν : Type} [JSNumber ν] (env : Env) (random : Nat → ν)
    (w : World ν) (hload : w.loading = false) (hnone : w.products = []) :
    ProductList env random w = .ok (Page.emptyState (emptyHeading env)) := by
  simp [ProductList, hload, hnone]
  rfl

/-! ## The claims about `fetchProducts` and the empty state -/

/-- C1: after a fetch whose response is ok and whose body parses as the JSON
value `d`, the product list is exactly `d` (same elements, same order) when
`d` is an array, and is empty when `d` is not an array, in which case the page
is the empty state. -/
theorem C1_ok_response_sets_products {ν : Type} [JSNumber ν] (env : Env) (net : Network ν)
    (random : Nat → ν) (isRetry : Bool) (w : World ν) (status : Nat) (d : JSValue ν)
    (hres : net (requestUrl env) = .ok { ok := true, status := status, json := .ok d }) :
    (∀ xs, d = JSValue.arr xs → (fetchProducts env net isRetry w).products = xs) ∧
    (d.isArray = false →
      (fetchProducts env net isRetry w).products = [] ∧
      ProductList env random (fetchProducts env net isRetry w)
        = .ok (Page.emptyState (emptyHeading env))) := by
  rw [fetchProducts_ok env net isRetry w status d hres]
  refine ⟨?_, ?_⟩
  · intro xs hd
    subst hd
    rfl
  · intro hd
    have hempty : arrayOrEmpty d = [] := by
      cases d <;> first | rfl | simp [JSValue.isArray] at hd
    exact ⟨hempty, ProductList_empty env random _ rfl hempty⟩

/-- C1 at a server that sends a JSON object: the list is emptied and, with
the search `red shoes`, the empty state names it. -/
theorem C1_ok_response_sets_products_witness :
    (fetchProducts searchEnv netObjectBody false stockedWorld).products = [] ∧
    ProductList searchEnv (fun _ => (0 : Int))
        (fetchProducts searchEnv netObjectBody false stockedWorld)
      = .ok (Page.emptyState (emptyHeading searchEnv)) :=
  (C1_ok_response_sets_products searchEnv netObjectBody (fun _ => (0 : Int)) false stockedWorld
    200 (JSValue.obj [("error", JSValue.str "maintenance")]) rfl).2 rfl

/-- C3: for a response that is not ok, with status `s`, the fetch run on
mount or on a change of the query calls `setError` exactly once, with the
message `Server status: s` (the decimal digits of `s`) and the status label
`Offline`; for a failure whose exception has an empty message the call
carries `An unexpected error occurred` instead. -/
theorem C3_initial_failure_reports_once {ν : Type} (env : Env) (net : Network ν)
    (w : World ν) :
    (∀ res, net (requestUrl env) = .ok res → res.ok = false →
      (onQueryEffect env net w).errorCalls = w.errorCalls ++
        [{ message := "Server status: " ++ Nat.repr res.status, status := "Offline" }]) ∧
    (∀ err, fetchProductsBody (net (requestUrl env)) = .error err → err.message = "" →
      (onQueryEffect env net w).errorCalls = w.errorCalls ++
        [{ message := "An unexpected error occurred", status := "Offline" }]) := by
  refine ⟨?_, ?_⟩
  · intro res hres hok
    have hbody := (fetchProductsBody_failure (net (requestUrl env))).2.1 res hres hok
    rw [onQueryEffect, fetchProducts_error env net false w _ hbody]
    have hne := serverStatus_ne_empty (toString res.status)
    simp only [hne]
    rfl
  · intro err hbody hmsg
    rw [onQueryEffect, fetchProducts_error env net false w _ hbody]
    simp [hmsg]

/-- C3 at a server answering 500 (one call, whose message holds `500`) and
at a connection failing without a message (one call, with the generic
message). -/
theorem C3_initial_failure_reports_once_witness :
    (onQueryEffect searchEnv netStatus500 (World.initial Int)).errorCalls =
      [] ++ [{ message := "Server status: " ++ Nat.repr 500, status := "Offline" }] ∧
    (onQueryEffect searchEnv netSilentFailure (World.initial Int)).errorCalls =
      [] ++ [{ message := "An unexpected error occurred", status := "Offline" }] :=
  ⟨(C3_initial_failure_reports_once searchEnv netStatus500 (World.initial Int)).1
      { ok := false, status := 500, json := .ok JSValue.null } rfl rfl,
   (C3_initial_failure_reports_once searchEnv netSilentFailure (World.initial Int)).2
      { message := "" } rfl rfl⟩

/-- C4 fails on the code: a click on Refresh Store runs `fetchProducts()`
with `isRetry` at its default `false`, so when the server answers 500 the
failure is reported through `setError` like any other. -/
theorem C4_refresh_failure_is_reported :
    (onRefreshClick searchEnv netStatus500 quietWorld).errorCalls.map (fun e => e.message)
      = ["Server status: 500"] ∧
    quietWorld.errorCalls.map (fun e => e.message) = [] := by
  decide

/-- C5: when loading is false and the product list is empty, the heading of
the empty state is `No results for "q"` for every non-empty search parameter
`q`, and `The store is quiet today` when the parameter is absent or empty. -/
theorem C5_empty_state_heading {ν : Type} [JSNumber ν] (env : Env) (random : Nat → ν)
    (w : World ν) (hload : w.loading = false) (hnone : w.products = []) :
    (∀ q, env.q = some q → q ≠ "" →
      ProductList env random w = .ok (Page.emptyState ("No results for \"" ++ q ++ "\""))) ∧
    (env.q = none ∨ env.q = some "" →
      ProductList env random w = .ok (Page.emptyState "The store is quiet today")) := by
  rw [ProductList_empty env random w hload hnone]
  refine ⟨?_, ?_⟩
  · intro q hq hne
    simp [emptyHeading, query_of_nonempty env q hq hne, hne]
  · intro hq
    simp [emptyHeading, query_of_absent env hq]

/-- C5 for the search `shoes`: the heading reads `No results for "shoes"`. -/
theorem C5_empty_state_heading_witness :
    ProductList { apiUrl := "https://api.snapbuy.test", q := some "shoes" }
        (fun _ => (0 : Int)) quietWorld
      = .ok (Page.emptyState ("No results for \"" ++ "shoes" ++ "\"")) :=
  (C5_empty_state_heading { apiUrl := "https://api.snapbuy.test", q := some "shoes" }
    (fun _ => (0 : Int)) quietWorld rfl rfl).1 "shoes" rfl (by decide)

/-- C7: every run of `fetchProducts` hands exactly one URL to `fetch`: the
API URL followed by `/products?q=` and `encodeURIComponent` of the search
parameter when that is non-empty, and by `/products` alone when the parameter
is absent or empty. -/
theorem C7_one_request_per_run {ν : Type} (env : Env) (net : Network ν) (isRetry : Bool)
    (w : World ν) :
    (fetchProducts env net isRetry w).requests = w.requests ++
      [match env.q with
        | some q =>
            if q = "" then env.apiUrl ++ "/products"
            else env.apiUrl ++ "/products?q=" ++ encodeURIComponent q
        | none => env.apiUrl ++ "/products"] := by
  have hurl : requestUrl env =
      (match env.q with
        | some q =>
            if q = "" then env.apiUrl ++ "/products"
            else env.apiUrl ++ "/products?q=" ++ encodeURIComponent q
        | none => env.apiUrl ++ "/products") := by
    cases hq : env.q with
    | none => simp [requestUrl, Env.query, hq]
    | some q =>
      by_cases hne : q = ""
      · simp [requestUrl, Env.query, hq, hne]
      · simp [requestUrl, Env.query, hq, hne]
  rw [← hurl]
  exact fetchProducts_requests env net isRetry w

/-- C8 fails on the code: a click on Refresh Store runs `fetchProducts()`
with `isRetry` at its default `false`, so the loading flag is set and the
loader replaces the page while the request is in flight. -/
theorem C8_refresh_shows_loader {ν : Type} [JSNumber ν] (env : Env) (random : Nat → ν)
    (w : World ν) :
    (onRefreshClickBegin env w).loading = true ∧
    ProductList env random (onRefreshClickBegin env w) = .ok Page.loader := by
  refine ⟨rfl, ?_⟩
  simp [ProductList, onRefreshClickBegin, fetchProductsBegin]
  rfl

/-- C10: after a failed fetch (the request rejected, a response that is not
ok, or a body that does not parse), with `isRetry` true or false, the product
list is the one before the fetch and the loading flag is false. -/
theorem C10_failure_keeps_products {ν : Type} (env : Env) (net : Network ν)
    (isRetry : Bool) (w : World ν)
    (hfail : (∃ e, net (requestUrl env) = .error e) ∨
      (∃ res, net (requestUrl env) = .ok res ∧
        (res.ok = false ∨ ∃ e, res.json = .error e))) :
    (fetchProducts env net isRetry w).products = w.products ∧
    (fetchProducts env net isRetry w).loading = false := by
  have hbody : ∃ err, fetchProductsBody (net (requestUrl env)) = .error err := by
    have hcases := fetchProductsBody_failure (net (requestUrl env))
    rcases hfail with ⟨e, he⟩ | ⟨res, hres, hbad⟩
    · exact ⟨e, hcases.1 e he⟩
    · cases hok : res.ok with
      | false => exact ⟨_, hcases.2.1 res hres hok⟩
      | true =>
        rcases hbad with hno | ⟨e, he⟩
        · rw [hok] at hno
          cases hno
        · exact ⟨e, hcases.2.2 res e hres hok he⟩
  obtain ⟨err, herr⟩ := hbody
  rw [fetchProducts_error env net isRetry w err herr]
  exact ⟨rfl, rfl⟩

/-- C10 at a server answering 500 to a silent retry: the product on screen
stays. -/
theorem C10_failure_keeps_products_witness :
    (fetchProducts searchEnv netStatus500 true stockedWorld).products = stockedWorld.products ∧
    (fetchProducts searchEnv netStatus500 true stockedWorld).loading = false :=
  C10_failure_keeps_products searchEnv netStatus500 true stockedWorld
    (Or.inr ⟨{ ok := false, status := 500, json := .ok JSValue.null }, rfl, Or.inl rfl⟩)

/-! ## Properties of `GridItem` -/

/-- A truthy value is neither `null` nor `undefined`. -/
theorem isNullish_of_truthy {ν : Type} [JSNumber ν] (v : JSValue ν)
    (h : v.truthy = true) : v.isNullish = false := by
  cases v <;> first | rfl | (simp [JSValue.truthy] at h)

/-- Reading a property of a value that is neither `null` nor `undefined`
does not throw. -/
theorem getField_of_not_nullish {ν : Type} (v : JSValue ν) (key : String)
    (h : v.isNullish = false) : v.getField key = .ok (v.ownField key) := by
  simp [JSValue.getField, h]
  rfl

/-- The card `GridItem` returns for a truthy item whose `_id` converts to the
text `s`. -/
theorem GridItem_ok {ν : Type} [JSNumber ν] (item : JSValue ν) (isHovered : Bool)
    (s : String) (hitem : item.truthy = true)
    (hid : (item.ownField "_id").toJSString = .ok s) :
    GridItem item isHovered = .ok (some {
      linkTo := "/products/" ++ s
      imgSrc := (((item.ownField "images").optIndex 0).optField "src").or
        (JSValue.str placeholderImage)
      imgAlt := (item.ownField "name").or (JSValue.str "Product")
      quickViewPrice :=
        if isHovered then some [JSValue.str "Rs. ", priceChild (item.ownField "price")]
        else none
      title := (item.ownField "name").or (JSValue.str "Unnamed Product")
      subtitle := (item.ownField "category").or (JSValue.str "Collection") }) := by
  have hnn := isNullish_of_truthy item hitem
  simp only [GridItem, hitem, getField_of_not_nullish item _ hnn, hid, bind, Except.bind,
    Bool.not_true]
  rfl

/-- The text of the children `Rs. ` and `v` when `v` renders as `t`. -/
theorem priceText_children {ν : Type} [JSNumber ν] (v : JSValue ν) (t : String)
    (h : v.childText = some t) :
    JSValue.childrenText [JSValue.str "Rs. ", v] = some ("Rs. " ++ t) := by
  simp [JSValue.childrenText, JSValue.childText, h]

/-- C6: the card of a product (a truthy item whose `_id` converts to text)
has the placeholder URL as image source when the field `images` is missing,
is an empty list, or starts with an entry that has no `src` or an empty one;
when `images[0].src` is a non-empty text, the image source is that text. -/
theorem C6_image_source {ν : Type} [JSNumber ν] (item : JSValue ν) (isHovered : Bool)
    (s : String) (hitem : item.truthy = true)
    (hid : (item.ownField "_id").toJSString = .ok s) :
    ∃ card, GridItem item isHovered = .ok (some card) ∧
      (item.ownField "images" = JSValue.undefined →
        card.imgSrc = JSValue.str "https://placehold.co/400x500/f8fafc/64748b?text=No+Image") ∧
      (item.ownField "images" = JSValue.arr [] →
        card.imgSrc = JSValue.str "https://placehold.co/400x500/f8fafc/64748b?text=No+Image") ∧
      (∀ first rest, item.ownField "images" = JSValue.arr (first :: rest) →
        (first.optField "src" = JSValue.undefined ∨ first.optField "src" = JSValue.str "") →
        card.imgSrc = JSValue.str "https://placehold.co/400x500/f8fafc/64748b?text=No+Image") ∧
      (∀ src, ((item.ownField "images").optIndex 0).optField "src" = JSValue.str src →
        src ≠ "" → card.imgSrc = JSValue.str src) := by
  refine ⟨_, GridItem_ok item isHovered s hitem hid, ?_, ?_, ?_, ?_⟩
  · intro h
    simp only [h]
    rfl
  · intro h
    simp only [h]
    rfl
  · intro first rest h hsrc
    have hfirst : (JSValue.arr (first :: rest)).optIndex 0 = first := rfl
    simp only [h, hfirst]
    rcases hsrc with h | h <;> simp only [h] <;> rfl
  · intro src h hne
    simp only [h]
    simp [JSValue.or, JSValue.truthy, hne]

/-- C6 at the sample products: the pen shows the `src` of its first image,
the box, sent without `images`, shows the placeholder. -/
theorem C6_image_source_witness :
    (∃ card, GridItem penProduct false = .ok (some card) ∧
      card.imgSrc = JSValue.str "https://img.snapbuy.test/pen.png") ∧
    (∃ card, GridItem boxProduct false = .ok (some card) ∧
      card.imgSrc = JSValue.str "https://placehold.co/400x500/f8fafc/64748b?text=No+Image") :=
  ⟨(C6_image_source penProduct false "p1" rfl rfl).imp
      (fun _ h => ⟨h.1, h.2.2.2.2 "https://img.snapbuy.test/pen.png" rfl (by decide)⟩),
   (C6_image_source boxProduct false "p3" rfl rfl).imp
      (fun _ h => ⟨h.1, h.2.1 rfl⟩)⟩

/-- C9 as stated fails on the code: a product priced `0`, a present scalar,
shows `Rs. N/A` in the quick view, not `Rs. 0`. -/
theorem C9_zero_price_shows_fallback :
    ((GridItem (JSValue.obj [("_id", JSValue.str "p2"), ("name", JSValue.str "Sample"),
        ("price", JSValue.num (0 : Int))]) true).toOption.bind
      (fun rendered => rendered.bind Card.priceText)) = some "Rs. N/A" ∧
    "Rs. N/A" ≠ "Rs. " ++ JSNumber.toStr (0 : Int) := by
  decide

/-- C9, amended: in the quick view of a hovered product (a truthy item whose
`_id` converts to text) the price text is `Rs. ` followed by
`JSON.stringify(price)` when the price is an object or an array, by the price
itself when it is a non-empty text or a number other than zero and NaN, and by
`N/A` when the price is `undefined`, `false`, the empty text, zero or NaN. -/
theorem C9_quick_view_price {ν : Type} [JSNumber ν] (item : JSValue ν)
    (s : String) (hitem : item.truthy = true)
    (hid : (item.ownField "_id").toJSString = .ok s) :
    ∃ card, GridItem item true = .ok (some card) ∧
      (∀ fields, item.ownField "price" = JSValue.obj fields →
        ∃ t, JSValue.stringify (JSValue.obj fields) = some t ∧
          card.priceText = some ("Rs. " ++ t)) ∧
      (∀ xs, item.ownField "price" = JSValue.arr xs →
        ∃ t, JSValue.stringify (JSValue.arr xs) = some t ∧
          card.priceText = some ("Rs. " ++ t)) ∧
      (∀ t, item.ownField "price" = JSValue.str t → t ≠ "" →
        card.priceText = some ("Rs. " ++ t)) ∧
      (∀ n, item.ownField "price" = JSValue.num n → JSNumber.isFalsy n = false →
        card.priceText = some ("Rs. " ++ JSNumber.toStr n)) ∧
      (item.ownField "price" = JSValue.undefined ∨
        item.ownField "price" = JSValue.bool false ∨
        item.ownField "price" = JSValue.str "" ∨
        (∃ n, item.ownField "price" = JSValue.num n ∧ JSNumber.isFalsy n = true) →
        card.priceText = some "Rs. N/A") := by
  refine ⟨_, GridItem_ok item true s hitem hid, ?_, ?_, ?_, ?_, ?_⟩
  · intro fields h
    refine ⟨_, rfl, ?_⟩
    simp only [h, Card.priceText, if_true, Option.bind]
    exact priceText_children _ _ rfl
  · intro xs h
    refine ⟨_, rfl, ?_⟩
    simp only [h, Card.priceText, if_true, Option.bind]
    exact priceText_children _ _ rfl
  · intro t h hne
    simp only [h, Card.priceText, if_true, Option.bind]
    apply priceText_children
    simp [priceChild, JSValue.typeofIsObject, JSValue.or, JSValue.truthy, hne,
      JSValue.childText]
  · intro n h hn
    simp only [h, Card.priceText, if_true, Option.bind]
    apply priceText_children
    simp [priceChild, JSValue.typeofIsObject, JSValue.or, JSValue.truthy, hn,
      JSValue.childText]
  · intro h
    simp only [Card.priceText, if_true, Option.bind]
    apply priceText_children
    rcases h with h | h | h | ⟨n, h, hn⟩
    · simp [h, priceChild, JSValue.typeofIsObject, JSValue.or, JSValue.truthy,
        JSValue.childText]
    · simp [h, priceChild, JSValue.typeofIsObject, JSValue.or, JSValue.truthy,
        JSValue.childText]
    · simp [h, priceChild, JSValue.typeofIsObject, JSValue.or, JSValue.truthy,
        JSValue.childText]
    · simp [h, priceChild, JSValue.typeofIsObject, JSValue.or, JSValue.truthy,
        JSValue.childText, hn]

/-- C9, amended, at the sample product: priced `120`, it shows `Rs. 120`. -/
theorem C9_quick_view_price_witness :
    ∃ card, GridItem penProduct true = .ok (some card) ∧
      card.priceText = some ("Rs. " ++ JSNumber.toStr (120 : Int)) :=
  (C9_quick_view_price penProduct "p1" rfl rfl).imp
    (fun _ h => ⟨h.1, h.2.2.2.2.1 120 rfl rfl⟩)

/-! ## The grid -/

mutual
/-- A value React can render as a child has a string conversion. -/
theorem toJSString_of_childText {ν : Type} [JSNumber ν] :
    ∀ (v : JSValue ν) (t : String), v.childText = some t → ∃ s, v.toJSString = .ok s
  | JSValue.undefined, _, _ => ⟨_, rfl⟩
  | JSValue.null, _, _ => ⟨_, rfl⟩
  | JSValue.bool _, _, _ => ⟨_, rfl⟩
  | JSValue.num _, _, _ => ⟨_, rfl⟩
  | JSValue.str _, _, _ => ⟨_, rfl⟩
  | JSValue.arr xs, t, h => by
      rw [JSValue.childText] at h
      obtain ⟨parts, hparts⟩ := joinParts_of_childrenText xs t h
      exact ⟨String.intercalate "," parts, by
        rw [JSValue.toJSString, hparts]
        rfl⟩
  | JSValue.obj _, _, h => by
      rw [JSValue.childText] at h
      cases h
/-- The elements of an array React can render all have a string conversion. -/
theorem joinParts_of_childrenText {ν : Type} [JSNumber ν] :
    ∀ (xs : List (JSValue ν)) (t : String), JSValue.childrenText xs = some t →
      ∃ parts, JSValue.joinParts xs = .ok parts
  | [], _, _ => ⟨[], rfl⟩
  | x :: rest, t, h => by
      rw [JSValue.childrenText] at h
      cases hx : x.childText with
      | none => simp [hx] at h
      | some tx =>
        cases hrest : JSValue.childrenText rest with
        | none => simp [hx, hrest] at h
        | some tr =>
          obtain ⟨s, hs⟩ := toJSString_of_childText x tx hx
          obtain ⟨parts, hparts⟩ := joinParts_of_childrenText rest tr hrest
          refine ⟨(if x.isNullish then "" else s) :: parts, ?_⟩
          rw [JSValue.joinParts, hparts]
          cases hn : x.isNullish
          · simp only [hs, Bool.false_eq_true, if_false]
            rfl
          · simp only [if_true]
            rfl
end

/-- The expression `a || b` is one of its operands. -/
theorem or_eq_left_or_right {ν : Type} [JSNumber ν] (a b : JSValue ν) :
    a.or b = a ∨ a.or b = b := by
  unfold JSValue.or
  cases a.truthy
  · exact Or.inr rfl
  · exact Or.inl rfl

/-- An attribute value with a string conversion can be written. -/
theorem attributeText_ok {ν : Type} [JSNumber ν] (v : JSValue ν) (s : String)
    (h : v.toJSString = .ok s) : ∃ a, attributeText v = .ok a := by
  cases v with
  | undefined => exact ⟨none, rfl⟩
  | null => exact ⟨none, rfl⟩
  | bool b => exact ⟨none, rfl⟩
  | num n => exact ⟨some s, by simp only [attributeText, h, bind, Except.bind]; rfl⟩
  | str t => exact ⟨some s, by simp only [attributeText, h, bind, Except.bind]; rfl⟩
  | arr xs => exact ⟨some s, by simp only [attributeText, h, bind, Except.bind]; rfl⟩
  | obj fields => exact ⟨some s, by simp only [attributeText, h, bind, Except.bind]; rfl⟩

/-- The value of the price expression of line 46 is always a text, a number
or `true`, which React renders. -/
theorem priceChild_childText {ν : Type} [JSNumber ν] (price : JSValue ν) :
    ∃ t, (priceChild price).childText = some t := by
  cases price with
  | undefined => exact ⟨_, rfl⟩
  | null => exact ⟨_, rfl⟩
  | bool b => cases b <;> exact ⟨_, rfl⟩
  | num n =>
    cases hn : JSNumber.isFalsy n <;>
      simp [priceChild, JSValue.typeofIsObject, JSValue.or, JSValue.truthy, hn,
        JSValue.childText]
  | str s =>
    by_cases hs : s = "" <;>
      simp [priceChild, JSValue.typeofIsObject, JSValue.or, JSValue.truthy, hs,
        JSValue.childText]
  | arr xs => exact ⟨_, rfl⟩
  | obj fields => exact ⟨_, rfl⟩

/-- A falsy item makes `GridItem` return `null` (line 12). -/
theorem GridItem_falsy {ν : Type} [JSNumber ν] (item : JSValue ν) (isHovered : Bool)
    (hitem : item.truthy = false) : GridItem item isHovered = .ok none := by
  simp only [GridItem, hitem]
  rfl

/-- A truthy item whose `_id` and image source convert to text and whose
`name` and `category` are valid React children is rendered as a card. -/
theorem GridItem_render_ok {ν : Type} [JSNumber ν] (item : JSValue ν) (isHovered : Bool)
    (hitem : item.truthy = true)
    (hid : ∃ s, (item.ownField "_id").toJSString = .ok s)
    (hsrc : ∃ s, (((item.ownField "images").optIndex 0).optField "src").toJSString = .ok s)
    (hname : ∃ t, (item.ownField "name").childText = some t)
    (hcategory : ∃ t, (item.ownField "category").childText = some t) :
    ∃ card shown, GridItem item isHovered = .ok (some card) ∧ card.render = .ok shown := by
  obtain ⟨s, hs⟩ := hid
  -- the attribute `src`
  have hsrcA : ∃ a, attributeText
      ((((item.ownField "images").optIndex 0).optField "src").or
        (JSValue.str placeholderImage)) = .ok a := by
    rcases or_eq_left_or_right (((item.ownField "images").optIndex 0).optField "src")
      (JSValue.str placeholderImage) with h | h
    · rw [h]
      obtain ⟨t, ht⟩ := hsrc
      exact attributeText_ok _ t ht
    · rw [h]
      exact ⟨_, rfl⟩
  -- the attribute `alt`
  have haltA : ∃ a, attributeText
      ((item.ownField "name").or (JSValue.str "Product")) = .ok a := by
    rcases or_eq_left_or_right (item.ownField "name") (JSValue.str "Product") with h | h
    · rw [h]
      obtain ⟨t, ht⟩ := hname
      obtain ⟨u, hu⟩ := toJSString_of_childText _ t ht
      exact attributeText_ok _ u hu
    · rw [h]
      exact ⟨_, rfl⟩
  -- the children of lines 58 and 59
  have htitle : ∃ t, renderChild
      ((item.ownField "name").or (JSValue.str "Unnamed Product")) = .ok t := by
    rcases or_eq_left_or_right (item.ownField "name") (JSValue.str "Unnamed Product")
      with h | h
    · rw [h]
      obtain ⟨t, ht⟩ := hname
      exact ⟨t, by simp only [renderChild, ht]; rfl⟩
    · rw [h]
      exact ⟨_, rfl⟩
  have hsubtitle : ∃ t, renderChild
      ((item.ownField "category").or (JSValue.str "Collection")) = .ok t := by
    rcases or_eq_left_or_right (item.ownField "category") (JSValue.str "Collection")
      with h | h
    · rw [h]
      obtain ⟨t, ht⟩ := hcategory
      exact ⟨t, by simp only [renderChild, ht]; rfl⟩
    · rw [h]
      exact ⟨_, rfl⟩
  -- the children of line 46
  have hprice : ∃ t, renderChildren
      [JSValue.str "Rs. ", priceChild (item.ownField "price")] = .ok t := by
    obtain ⟨t, ht⟩ := priceChild_childText (item.ownField "price")
    exact ⟨_, by simp only [renderChildren, priceText_children _ t ht]; rfl⟩
  obtain ⟨a1, h1⟩ := hsrcA
  obtain ⟨a2, h2⟩ := haltA
  obtain ⟨t3, h3⟩ := htitle
  obtain ⟨t4, h4⟩ := hsubtitle
  obtain ⟨t5, h5⟩ := hprice
  cases isHovered
  · refine ⟨_, { href := "/products/" ++ s, src := a1, alt := a2, priceText := none,
                 title := t3, subtitle := t4 },
      GridItem_ok item false s hitem hs, ?_⟩
    simp only [Card.render, h1, h2, h3, h4, bind, Except.bind, Bool.false_eq_true, if_false]
    rfl
  · refine ⟨_, { href := "/products/" ++ s, src := a1, alt := a2, priceText := some t5,
                 title := t3, subtitle := t4 },
      GridItem_ok item true s hitem hs, ?_⟩
    simp only [Card.render, h1, h2, h3, h4, h5, bind, Except.bind, if_true]
    rfl

/-- The grid of a list without `null`, from position `k` on: the truthy
elements that React can render each put one card on the page, in order, under
the key `_id` or else `Math.random()`; the falsy elements put none. -/
theorem renderCards_gridItems {ν : Type} [JSNumber ν] (random : Nat → ν)
    (hovered : Nat → Bool) :
    ∀ (xs : List (JSValue ν)) (k : Nat),
      (∀ item ∈ xs, item.isNullish = false) →
      (∀ item ∈ xs, item.truthy = true →
        (∃ s, (item.ownField "_id").toJSString = .ok s) ∧
        (∃ s, (((item.ownField "images").optIndex 0).optField "src").toJSString = .ok s) ∧
        (∃ t, (item.ownField "name").childText = some t) ∧
        (∃ t, (item.ownField "category").childText = some t)) →
      ∃ items cards, gridItems random k xs = .ok items ∧
        renderCards hovered k items = .ok cards ∧
        cards.length = (xs.filter (fun item => item.truthy)).length ∧
        List.Forall₂
          (fun (p : Nat × JSValue ν) (c : JSValue ν × RenderedCard) =>
            c.1 = (p.2.ownField "_id").or (JSValue.num (random p.1)) ∧
            ∃ card, GridItem p.2 (hovered p.1) = .ok (some card) ∧ card.render = .ok c.2)
          ((List.enumFrom k xs).filter (fun p => p.2.truthy)) cards := by
  intro xs
  induction xs with
  | nil =>
    intro k _ _
    exact ⟨[], [], rfl, rfl, rfl, List.Forall₂.nil⟩
  | cons x rest ih =>
    intro k hnull helems
    have hx : x.isNullish = false := hnull x (List.mem_cons_self x rest)
    obtain ⟨items, cards, hitems, hcards, hlen, hrel⟩ :=
      ih (k + 1) (fun item hmem => hnull item (List.mem_cons_of_mem x hmem))
        (fun item hmem => helems item (List.mem_cons_of_mem x hmem))
    have hgrid : gridItems random k (x :: rest) = .ok
        (({ key := (x.ownField "_id").or (JSValue.num (random k)), item := x }
          : GridItemElement ν) :: items) := by
      simp only [gridItems, getField_of_not_nullish x _ hx, hitems, bind, Except.bind]
      rfl
    cases hxt : x.truthy with
    | false =>
      refine ⟨_, cards, hgrid, ?_, ?_, ?_⟩
      · simp only [renderCards, GridItem_falsy x (hovered k) hxt, hcards, bind, Except.bind]
        rfl
      · simp [List.filter_cons, hxt, hlen]
      · simpa [List.enumFrom_cons, List.filter_cons, hxt] using hrel
    | true =>
      obtain ⟨hid, hsrc, hname, hcategory⟩ := helems x (List.mem_cons_self x rest) hxt
      obtain ⟨card, shown, hcard, hshown⟩ :=
        GridItem_render_ok x (hovered k) hxt hid hsrc hname hcategory
      refine ⟨_, ((x.ownField "_id").or (JSValue.num (random k)), shown) :: cards,
        hgrid, ?_, ?_, ?_⟩
      · simp only [renderCards, hcard, hshown, hcards, bind, Except.bind]
        rfl
      · simp [List.filter_cons, hxt, hlen]
      · simp only [List.enumFrom_cons, List.filter_cons, hxt, if_true]
        exact List.Forall₂.cons ⟨rfl, card, hcard, hshown⟩ hrel

/-- A product whose `name` is an object leaves no page: React rejects the
child of line 58. -/
theorem ProductList_object_name_throws :
    (ProductList plainEnv (fun _ => (0 : Int))
        (fetchProducts plainEnv netObjectName false (World.initial Int))
      >>= Page.cards (fun _ => false))
    = .error invalidChild :=
  rfl

/-- C2 as stated fails on the code: for the array holding a product without
`_id` and the value `false`, the page shows one card, not two, and that card
is keyed by the value of `Math.random()`, the product having no `_id`. -/
theorem C2_falsy_element_and_missing_id :
    (arrayOrEmpty (JSValue.arr [JSValue.obj [("name", JSValue.str "Pen")],
        JSValue.bool false] : JSValue Int)).length = 2 ∧
    (JSValue.obj [("name", JSValue.str "Pen")] : JSValue Int).ownField "_id"
      = JSValue.undefined ∧
    ∃ card,
      (ProductList plainEnv (fun _ => (0 : Int))
          (fetchProducts plainEnv netOddCatalog false (World.initial Int))
        >>= Page.cards (fun _ => false))
      = .ok [(JSValue.num 0, card)] :=
  ⟨rfl, rfl, _, rfl⟩

/-- C2, amended: after an ok response whose body is a JSON array without a
`null` element, in which every truthy element has an `_id` and an image
source `images[0].src` that convert to text and a `name` and a `category`
that React can render as children, the page holds exactly one card per
truthy element of the array, in the order of the array, and none for a falsy
element; the card of an element is keyed by its `_id` when that is truthy and
by the value of `Math.random()` otherwise. -/
theorem C2_one_card_per_truthy_element {ν : Type} [JSNumber ν] (env : Env)
    (net : Network ν) (random : Nat → ν) (hovered : Nat → Bool) (isRetry : Bool)
    (w : World ν) (status : Nat) (xs : List (JSValue ν))
    (hres : net (requestUrl env)
      = .ok { ok := true, status := status, json := .ok (JSValue.arr xs) })
    (hnull : ∀ item ∈ xs, item.isNullish = false)
    (helems : ∀ item ∈ xs, item.truthy = true →
      (∃ s, (item.ownField "_id").toJSString = .ok s) ∧
      (∃ s, (((item.ownField "images").optIndex 0).optField "src").toJSString = .ok s) ∧
      (∃ t, (item.ownField "name").childText = some t) ∧
      (∃ t, (item.ownField "category").childText = some t)) :
    ∃ page cards,
      ProductList env random (fetchProducts env net isRetry w) = .ok page ∧
      page.cards hovered = .ok cards ∧
      cards.length = (xs.filter (fun item => item.truthy)).length ∧
      List.Forall₂
        (fun (p : Nat × JSValue ν) (c : JSValue ν × RenderedCard) =>
          c.1 = (p.2.ownField "_id").or (JSValue.num (random p.1)) ∧
          ∃ card, GridItem p.2 (hovered p.1) = .ok (some card) ∧ card.render = .ok c.2)
        (xs.enum.filter (fun p => p.2.truthy)) cards := by
  rw [fetchProducts_ok env net isRetry w status (JSValue.arr xs) hres]
  cases xs with
  | nil =>
    exact ⟨Page.emptyState (emptyHeading env), [], rfl, rfl, rfl, List.Forall₂.nil⟩
  | cons x rest =>
    obtain ⟨items, cards, hitems, hcards, hlen, hrel⟩ :=
      renderCards_gridItems random hovered (x :: rest) 0 hnull helems
    refine ⟨Page.productGrid items, cards, ?_, hcards, hlen, hrel⟩
    simp only [ProductList, arrayOrEmpty, hitems, bind, Except.bind]
    rfl

/-- C2, amended, at a server sending the pen, `false` and the cup (which has
no `_id`): two cards, the pen keyed by its `_id` and then the cup, at
position 2, keyed by the value of `Math.random()`. -/
theorem C2_one_card_per_truthy_element_witness :
    ∃ page cards,
      ProductList searchEnv (fun _ => (0 : Int))
        (fetchProducts searchEnv netMixedCatalog false (World.initial Int)) = .ok page ∧
      page.cards (fun _ => false) = .ok cards ∧
      cards.length = 2 ∧
      List.Forall₂
        (fun (p : Nat × JSValue Int) (c : JSValue Int × RenderedCard) =>
          c.1 = (p.2.ownField "_id").or (JSValue.num 0) ∧
          ∃ card, GridItem p.2 false = .ok (some card) ∧ card.render = .ok c.2)
        [(0, penProduct), (2, cupProduct)] cards :=
  C2_one_card_per_truthy_element searchEnv netMixedCatalog (fun _ => (0 : Int))
    (fun _ => false) false (World.initial Int) 200
    [penProduct, JSValue.bool false, cupProduct] rfl
    (fun item hmem => by
      simp only [List.mem_cons, List.mem_singleton, List.not_mem_nil, or_false] at hmem
      rcases hmem with h | h | h <;> subst h <;> rfl)
    (fun item hmem htruthy => by
      simp only [List.mem_cons, List.mem_singleton, List.not_mem_nil, or_false] at hmem
      rcases hmem with h | h | h <;> subst h
      · exact ⟨⟨_, rfl⟩, ⟨_, rfl⟩, ⟨_, rfl⟩, ⟨_, rfl⟩⟩
      · exact absurd htruthy (by decide)
      · exact ⟨⟨_, rfl⟩, ⟨_, rfl⟩, ⟨_, rfl⟩, ⟨_, rfl⟩⟩)

end SnapBuy
